import Mathlib

/-!
Verification of the cardmail-pro business-card pipeline against its
natural-language specification.

The definitions below are a shallow embedding of the TypeScript sources:

* `Worker.*`      — src/worker/src/processors/ocrAndSend.ts
* `ParseCard.*`   — src/apps/web/src/helpers/parseCard.ts
* `Gmail.*`       — src/server/src/helpers/gmail.ts
* `EmailGen.*`    — src/server/src/helpers/emailGenerator.ts
* `MailHelper.*`  — src/apps/web/src/helpers/generateMail (unnamed/part_004)
* `ProcessOCR.*`  — src/server/src/helpers/processOCR.ts

External calls (OpenAI, Google Vision, fetch, BullMQ) are modelled as
explicit outcome parameters (`Except String _` / event lists); everything
the repository computes locally is embedded as executable Lean functions.
JavaScript strings are modelled as Lean `String`s (`.data : List Char`);
`.length` is the character count, which agrees with JS UTF-16 lengths on
the Basic Multilingual Plane (all text in this code base).  JS regular
expressions are embedded through a small backtracking engine (`RE`,
`reMatch`) whose alternative order mirrors JS leftmost-first greedy
matching.  Confidences (JS `number`s) are modelled as rationals.
-/

namespace CardMail

/-! ### JS string semantics helpers -/

/-- The character set matched by JS `\s` (and trimmed by `String.prototype.trim`):
ASCII whitespace plus NBSP and the ideographic space, the only Unicode
whitespace characters that can occur in this code base's data. -/
def jsWhitespace (c : Char) : Bool :=
  c = ' ' || c = '\t' || c = '\n' || c = '\r' || c = '\x0b' || c = '\x0c' ||
  c = ' ' || c = '　'

def jsTrimList (l : List Char) : List Char :=
  ((l.dropWhile jsWhitespace).reverse.dropWhile jsWhitespace).reverse

/-- JS `String.prototype.trim`. -/
def jsTrim (s : String) : String := ⟨jsTrimList s.data⟩

/-- JS `String.prototype.length` (char count; equal to the UTF-16 length on the BMP). -/
def jsLength (s : String) : Nat := s.data.length

/-- JS `s.split('\n')`. -/
def jsSplitNl (s : String) : List String :=
  (s.data.splitOn '\n').map (fun l => (⟨l⟩ : String))

/-- JS `a.includes(b)` (substring containment). -/
def jsIncludes (s sub : String) : Bool :=
  s.data.tails.any (fun t => sub.data.isPrefixOf t)

/-- JS `a.endsWith(b)`. -/
def jsEndsWith (s suffix : String) : Bool := suffix.data.isSuffixOf s.data

/-- JS truthiness of a possibly-`undefined` string: `undefined` and `''` are falsy. -/
def jsTruthy : Option String → Bool
  | none => false
  | some s => s ≠ ""

/-- JS `a || b` for a possibly-`undefined` string `a` and string default `b`. -/
def jsOr (a : Option String) (b : String) : String :=
  match a with
  | none => b
  | some s => if s = "" then b else s

/-- JS `a || b || ''` where `a` is a string and `b` possibly `undefined`. -/
def jsOrOr (a : String) (b : Option String) : String :=
  if a = "" then (b.getD "") else a

/-! ### A small regex engine with JS leftmost-first greedy semantics

`reMatch fuel re s` returns the list of possible remainders of `s` after
matching a prefix against `re`, in JS backtracking priority order (greedy
repetition first, left alternative first).  `fuel` bounds the recursion
depth; every iteration of a `star` must consume at least one character
(as in JS, which breaks empty loop iterations), so the bound computed by
`reFuel` below is exhaustive. -/

inductive RE : Type where
  | emp  : RE
  | eps  : RE
  | cls  : (Char → Bool) → RE
  | cat  : RE → RE → RE
  | alt  : RE → RE → RE
  | star : RE → RE

def reMatch : Nat → RE → List Char → List (List Char)
  | 0, _, _ => []
  | fuel+1, re, s =>
    match re with
    | .emp => []
    | .eps => [s]
    | .cls p =>
      match s with
      | [] => []
      | c :: rest => if p c then [rest] else []
    | .cat a b => (reMatch fuel a s).foldr (fun s2 acc => reMatch fuel b s2 ++ acc) []
    | .alt a b => reMatch fuel a s ++ reMatch fuel b s
    | .star a =>
      (((reMatch fuel a s).filter (fun s2 => s2.length < s.length)).foldr
        (fun s2 acc => reMatch fuel (.star a) s2 ++ acc) []) ++ [s]

/-- Syntactic size of a regex, used only to compute an exhaustive fuel bound. -/
def RE.size : RE → Nat
  | .emp => 1
  | .eps => 1
  | .cls _ => 1
  | .cat a b => a.size + b.size + 1
  | .alt a b => a.size + b.size + 1
  | .star a => a.size + 1

/-- Fuel that exhausts every backtracking path: each `star` iteration
consumes at least one character and descending one regex node costs one
unit, so `(size + 2) * (length + 2)` over-approximates the recursion depth. -/
def reFuel (re : RE) (s : List Char) : Nat := (RE.size re + 2) * (s.length + 2)

/-- `a+` -/
def RE.plus (a : RE) : RE := .cat a (.star a)

/-- `a?` (greedy: presence preferred) -/
def RE.opt (a : RE) : RE := .alt a .eps

/-- `a{n}` -/
def RE.repExact (a : RE) : Nat → RE
  | 0 => .eps
  | n+1 => .cat a (RE.repExact a n)

/-- `a{0,n}` (greedy) -/
def RE.repUpTo (a : RE) : Nat → RE
  | 0 => .eps
  | n+1 => .alt (.cat a (RE.repUpTo a n)) .eps

/-- `a{m,n}` -/
def RE.repRange (a : RE) (m n : Nat) : RE := .cat (RE.repExact a m) (RE.repUpTo a (n - m))

/-- `a{m,}` -/
def RE.repAtLeast (a : RE) (m : Nat) : RE := .cat (RE.repExact a m) (.star a)

/-- A literal character. -/
def RE.ch (c : Char) : RE := .cls (fun d => d = c)

/-- A case-insensitive literal character (JS `i` flag, ASCII folding). -/
def RE.chI (c : Char) : RE := .cls (fun d => d.toLower = c.toLower)

/-- A literal string. -/
def RE.lit (s : String) : RE := s.data.foldr (fun c r => .cat (RE.ch c) r) .eps

/-- A case-insensitive literal string. -/
def RE.litI (s : String) : RE := s.data.foldr (fun c r => .cat (RE.chI c) r) .eps

/-- Does `re` match some prefix of `s`?  If so, return the JS-preferred
(first in backtracking order) remainder. -/
def reFirst (re : RE) (s : List Char) : Option (List Char) :=
  (reMatch (reFuel re s) re s).head?

/-- Leftmost search from index `i` (the list argument is the suffix of the
subject starting at `i`); returns the half-open match span `(start, stop)`
as indices into the original subject. -/
def reSearchAux (re : RE) : List Char → Nat → Option (Nat × Nat)
  | [], i =>
      match reFirst re [] with
      | some _ => some (i, i)
      | none => none
  | s@(_ :: rest), i =>
      match reFirst re s with
      | some r => some (i, i + (s.length - r.length))
      | none => reSearchAux re rest (i + 1)

/-- JS `s.search(re)`-style leftmost match span. -/
def reSearch (re : RE) (s : List Char) : Option (Nat × Nat) := reSearchAux re s 0

/-- JS `s.match(re)?.[0]` for a regex without the `g` flag (and the first
element of `s.match(re)` for one with it): the leftmost-first match. -/
def jsMatchFirst (re : RE) (s : String) : Option String :=
  match reSearch re s.data with
  | some (a, b) => some ⟨(s.data.drop a).take (b - a)⟩
  | none => none

/-- JS `re.test(s)` for a regex without the `g` flag. -/
def jsTest (re : RE) (s : String) : Bool := (reSearch re s.data).isSome

/-- JS `re.test(s)` for a `g`-flagged regex object: stateful `lastIndex`
threading — search starts at `lastIndex`; on success `lastIndex` becomes
the match end, on failure it resets to 0. -/
def jsTestG (re : RE) (s : String) (lastIndex : Nat) : Bool × Nat :=
  if lastIndex > s.data.length then (false, 0)
  else
    match reSearchAux re (s.data.drop lastIndex) lastIndex with
    | some (_, stop) => (true, stop)
    | none => (false, 0)

/-- JS `^re$`-anchored `test` (full-string match). -/
def jsTestFull (re : RE) (s : String) : Bool :=
  (reMatch (reFuel re s.data) re s.data).contains []

/-! Common character classes. -/

/-- JS `\w` = `[A-Za-z0-9_]`. -/
def wordChar (c : Char) : Bool := c.isAlphanum || c = '_'

/-- JS `\d`. -/
def digitChar (c : Char) : Bool := c.isDigit

/-- JS `[^\x00-\x7F]` (any non-ASCII character). -/
def nonAsciiChar (c : Char) : Bool := c.toNat > 0x7F

/-! ### Worker pipeline — src/worker/src/processors/ocrAndSend.ts -/

namespace Worker

/-- The class `[\w\.-]`. -/
def emailCls (c : Char) : Bool := wordChar c || c = '.' || c = '-'

/-- `/[\w\.-]+@[\w\.-]+\.\w+/` -/
def emailPattern : RE :=
  .cat (RE.plus (.cls emailCls)) (.cat (RE.ch '@')
    (.cat (RE.plus (.cls emailCls)) (.cat (RE.ch '.') (RE.plus (.cls wordChar)))))

/-- The class `[\d\-\(\)\+\s]`. -/
def phoneCls (c : Char) : Bool :=
  digitChar c || c = '-' || c = '(' || c = ')' || c = '+' || jsWhitespace c

/-- `/[\d\-\(\)\+\s]{10,}/` -/
def phonePattern : RE := RE.repAtLeast (.cls phoneCls) 10

/-- The class `[\s\w]`. -/
def spaceWordCls (c : Char) : Bool := jsWhitespace c || wordChar c

/-- The five `companyPatterns`, in source order. -/
def companyPatterns : List RE :=
  [ .cat (RE.lit "株式会社") (RE.plus (.cls spaceWordCls)),
    .cat (RE.plus (.cls wordChar)) (RE.lit "株式会社"),
    .cat (RE.plus (.cls wordChar)) (.cat (.star (.cls jsWhitespace))
      (.cat (RE.litI "Co.") (.cat (RE.opt (RE.ch ','))
        (.cat (.star (.cls jsWhitespace)) (.cat (RE.litI "Ltd") (RE.opt (RE.ch '.'))))))),
    .cat (RE.plus (.cls wordChar)) (.cat (.star (.cls jsWhitespace))
      (.cat (RE.litI "Inc") (RE.opt (RE.ch '.')))),
    .cat (RE.plus (.cls wordChar)) (.cat (.star (.cls jsWhitespace)) (RE.litI "Corporation")) ]

/-- `/^[A-Z][a-z]+\s+[A-Z][a-z]+$/` (anchored). -/
def latinNameRe : RE :=
  .cat (.cls Char.isUpper) (.cat (RE.plus (.cls Char.isLower))
    (.cat (RE.plus (.cls jsWhitespace)) (.cat (.cls Char.isUpper) (RE.plus (.cls Char.isLower)))))

/-- The `OCRResult` record of the worker.  `confidence` is a JS number. -/
structure OCRResult where
  name : String
  email : String
  company : String
  role : String
  confidence : ℚ
deriving DecidableEq, Repr

/-- The company loop: first pattern (in order) with a match wins; the match is trimmed. -/
def findCompany : List RE → String → String
  | [], _ => ""
  | p :: ps, text =>
    match jsMatchFirst p text with
    | some m => jsTrim m
    | none => findCompany ps text

/-- The name loop: the first line that matches no email/phone/company
pattern, has length in (2, 30), and looks like a Japanese or Latin name,
trimmed; `""` when no line qualifies. -/
def findName (lines : List String) : String :=
  match lines.find? (fun line =>
    !jsTest emailPattern line && !jsTest phonePattern line &&
    !companyPatterns.any (fun p => jsTest p line) &&
    decide (2 < jsLength line) && decide (jsLength line < 30) &&
    (line.data.any nonAsciiChar || jsTestFull latinNameRe line)) with
  | some line => jsTrim line
  | none => ""

/-- The role extraction: the line after the first line containing `name`
(`findIndex`/`includes`), when short and not an email line. -/
def findRole (lines : List String) (name : String) : String :=
  match lines.findIdx? (fun l => jsIncludes l name) with
  | none => ""
  | some nameIndex =>
    if nameIndex + 1 < lines.length then
      let potentialRole := (lines.drop (nameIndex + 1)).headD ""
      if jsLength potentialRole < 20 && !jsTest emailPattern potentialRole then
        jsTrim potentialRole
      else ""
    else ""

/-- `extractBusinessCardInfo` (ocrAndSend.ts).  Note the confidence is a
0–100 score: `+40` email, `+30` name, `+20` company, `+10` role. -/
def extractBusinessCardInfo (text : String) : OCRResult :=
  let lines := (jsSplitNl text).filter (fun l => jsTrim l ≠ "")
  let email := (jsMatchFirst emailPattern text).getD ""
  let company := findCompany companyPatterns text
  let name := findName lines
  let role := findRole lines name
  let confidence : ℚ :=
    (if email ≠ "" then 40 else 0) + (if name ≠ "" then 30 else 0) +
    (if company ≠ "" then 20 else 0) + (if role ≠ "" then 10 else 0)
  { name := if name = "" then "Unknown" else name,
    email := if email = "" then "no-email@example.com" else email,
    company := if company = "" then "Unknown Company" else company,
    role := role,
    confidence := confidence }

/-- The confidence stored by `saveCardData` (`cardInfo.confidence / 100`). -/
def savedConfidence (cardInfo : OCRResult) : ℚ := cardInfo.confidence / 100

/-- The body of the `/api/send` mock response consumed by `updateCardWithEmailInfo`. -/
structure SendResult where
  messageId : Option String
  subject : Option String
  body : Option String

/-- `processCardHandler` (ocrAndSend.ts), with the external calls as
outcome parameters: `ocr` is `performOCR` (its recognized text on
success), `save` is `saveCardData`'s fetch, `send` is `sendEmailViaAPI`.
`updateCardWithEmailInfo` never throws (it only logs on a non-ok
response), so its outcome does not alter control flow.  The second
component is the sequence of `job.updateProgress` values reported, in
order.  Image decoding and `preprocessImage` are total (the latter
returns the original buffer on error). -/
def processCardHandler (ocr : Except String String) (save : Except String Unit)
    (send : Except String SendResult) (_updateOk : Bool) :
    Except String OCRResult × List Nat :=
  match ocr with
  | .error e => (.error e, [10, 30])
  | .ok text =>
    let cardInfo := extractBusinessCardInfo text
    match save with
    | .error e => (.error e, [10, 30, 60, 70])
    | .ok _ =>
      match send with
      | .error e => (.error e, [10, 30, 60, 70, 80])
      | .ok _ => (.ok cardInfo, [10, 30, 60, 70, 80, 100])

end Worker

/-! ### Structured parser — src/apps/web/src/helpers/parseCard.ts -/

/-- Concrete language (`'ja' | 'en'`). -/
inductive Lang : Type where
  | ja : Lang
  | en : Lang
deriving DecidableEq, Repr

/-- Language option (`'ja' | 'en' | 'auto'`). -/
inductive LangOpt : Type where
  | ja : LangOpt
  | en : LangOpt
  | auto : LangOpt
deriving DecidableEq, Repr

namespace ParseCard

/-- `ParsedCardData` (parseCard.ts). -/
structure ParsedCardData where
  name : String
  company : String
  role : String
  email : String
  phone : String
  confidence : ℚ
deriving DecidableEq, Repr

/-- `ParseCardOptions`: optional fields, defaulted on destructuring. -/
structure ParseCardOptions where
  fallbackToRegex : Option Bool
  language : Option LangOpt

/-- The class `[a-zA-Z0-9._%+-]`. -/
def emailLocalCls (c : Char) : Bool :=
  c.isAlphanum || c = '.' || c = '_' || c = '%' || c = '+' || c = '-'

/-- The class `[a-zA-Z0-9.-]`. -/
def emailDomainCls (c : Char) : Bool := c.isAlphanum || c = '.' || c = '-'

/-- `PATTERNS.email = /[a-zA-Z0-9._%+-]+@[a-zA-Z0-9.-]+\.[a-zA-Z]{2,}/g` -/
def emailRe : RE :=
  .cat (RE.plus (.cls emailLocalCls)) (.cat (RE.ch '@')
    (.cat (RE.plus (.cls emailDomainCls))
      (.cat (RE.ch '.') (RE.repAtLeast (.cls Char.isAlpha) 2))))

/-- JS alternation `(?:a|b|…)`, trying alternatives in source order. -/
def RE.alts : List RE → RE
  | [] => .emp
  | [r] => r
  | r :: rs => .alt r (RE.alts rs)

/-- `PATTERNS.phone.jp = /(?:0\d{1,4}-\d{1,4}-\d{4}|0\d{9,10}|\+81-?\d{1,4}-?\d{1,4}-?\d{4})/g` -/
def phoneJpRe : RE :=
  RE.alts
    [ .cat (RE.ch '0') (.cat (RE.repRange (.cls digitChar) 1 4)
        (.cat (RE.ch '-') (.cat (RE.repRange (.cls digitChar) 1 4)
          (.cat (RE.ch '-') (RE.repExact (.cls digitChar) 4))))),
      .cat (RE.ch '0') (RE.repRange (.cls digitChar) 9 10),
      .cat (RE.lit "+81") (.cat (RE.opt (RE.ch '-'))
        (.cat (RE.repRange (.cls digitChar) 1 4) (.cat (RE.opt (RE.ch '-'))
          (.cat (RE.repRange (.cls digitChar) 1 4)
            (.cat (RE.opt (RE.ch '-')) (RE.repExact (.cls digitChar) 4)))))) ]

/-- The class `[1-9]`. -/
def nonZeroDigit (c : Char) : Bool := c.isDigit && c ≠ '0'

/-- `PATTERNS.phone.intl = /\+?[1-9]\d{1,14}/g` -/
def phoneIntlRe : RE :=
  .cat (RE.opt (RE.ch '+')) (.cat (.cls nonZeroDigit) (RE.repRange (.cls digitChar) 1 14))

/-- The class `[^\n]`. -/
def notNl (c : Char) : Bool := c ≠ '\n'

/-- `PATTERNS.company.jp` -/
def companyJpRe : RE :=
  .cat (RE.alts [RE.lit "株式会社", RE.lit "有限会社", RE.lit "合同会社",
    RE.lit "一般社団法人", RE.lit "公益財団法人", RE.lit "学校法人"])
    (RE.plus (.cls notNl))

/-- `PATTERNS.company.en` (`i` flag) -/
def companyEnRe : RE :=
  .cat (RE.alts [RE.litI "Inc.", RE.litI "Corp.", RE.litI "LLC", RE.litI "Ltd.",
    RE.litI "Co.", RE.litI "Company"])
    (.star (.cls notNl))

/-- `PATTERNS.role.jp` -/
def roleJpRe : RE :=
  .cat (RE.alts [RE.lit "代表取締役", RE.lit "取締役", RE.lit "部長", RE.lit "課長",
    RE.lit "主任", RE.lit "マネージャー", RE.lit "ディレクター", RE.lit "エンジニア",
    RE.lit "営業"])
    (.star (.cls notNl))

/-- `PATTERNS.role.en` (`i` flag) -/
def roleEnRe : RE :=
  .cat (RE.alts [RE.litI "CEO", RE.litI "CTO", RE.litI "CFO", RE.litI "President",
    RE.litI "Director", RE.litI "Manager", RE.litI "Engineer", RE.litI "Sales"])
    (.star (.cls notNl))

/-- `Partial<ParsedCardData>` as built by `extractWithRegex`: every field
starts `undefined`. -/
structure RegexPartial where
  name : Option String
  company : Option String
  role : Option String
  email : Option String
  phone : Option String
deriving DecidableEq, Repr

/-- The name loop of `extractWithRegex`.  `PATTERNS.phone.*` and
`PATTERNS.company.*` carry the `g` flag and are probed with `.test`, so
their `lastIndex` state threads through the iterations (both enter at 0:
the preceding `text.match(...)` calls on the same regex objects reset
`lastIndex` to 0).  `&&` short-circuiting means a test that is skipped
leaves its regex state untouched. -/
def nameLoop (phonePattern companyPattern : RE) :
    List String → Nat → Nat → Option String
  | [], _, _ => none
  | line :: rest, pLI, cLI =>
    if jsIncludes line "@" then nameLoop phonePattern companyPattern rest pLI cLI
    else
      let pr := jsTestG phonePattern line pLI
      if pr.1 then nameLoop phonePattern companyPattern rest pr.2 cLI
      else
        let cr := jsTestG companyPattern line cLI
        if cr.1 then nameLoop phonePattern companyPattern rest pr.2 cr.2
        else if 1 < jsLength line ∧ jsLength line < 50 then some (jsTrim line)
        else nameLoop phonePattern companyPattern rest pr.2 cr.2

/-- `extractWithRegex` (parseCard.ts). -/
def extractWithRegex (text : String) (language : Lang) : RegexPartial :=
  let lines := (jsSplitNl text).filter (fun l => jsTrim l ≠ "")
  let email := jsMatchFirst emailRe text
  let phonePattern := if language = .ja then phoneJpRe else phoneIntlRe
  let phone := jsMatchFirst phonePattern text
  let companyPattern := if language = .ja then companyJpRe else companyEnRe
  let company := (jsMatchFirst companyPattern text).map jsTrim
  let rolePattern := if language = .ja then roleJpRe else roleEnRe
  let role := (jsMatchFirst rolePattern text).map jsTrim
  let name := nameLoop phonePattern companyPattern lines 0 0
  { name := name, company := company, role := role, email := email, phone := phone }

/-- The JSON object parsed from the GPT function-call arguments: any field
may be absent (`undefined`). -/
structure GPTRaw where
  name : Option String
  company : Option String
  role : Option String
  email : Option String
  phone : Option String
  confidence : Option ℚ

/-- JS `a || b` for a possibly-`undefined` number (`0` is falsy). -/
def jsOrNum (a : Option ℚ) (b : ℚ) : ℚ :=
  match a with
  | none => b
  | some q => if q = 0 then b else q

/-- `extractWithGPT` (parseCard.ts): the OpenAI round-trip is the `resp`
parameter — `.error` for a thrown call or failed JSON parse (rethrown by
the source's catch), `.ok none` for a response without function-call
arguments (the source then throws `'GPT extraction returned no results'`),
`.ok (some parsed)` for parsed arguments, which the source normalizes:
`field || ''` and `Math.max(0, Math.min(1, parsed.confidence || 0.5))`. -/
def extractWithGPT (resp : Except String (Option GPTRaw)) : Except String ParsedCardData :=
  match resp with
  | .error e => .error e
  | .ok none => .error "GPT extraction returned no results"
  | .ok (some parsed) =>
    .ok { name := jsOr parsed.name "", company := jsOr parsed.company "",
          role := jsOr parsed.role "", email := jsOr parsed.email "",
          phone := jsOr parsed.phone "",
          confidence := max 0 (min 1 (jsOrNum parsed.confidence 0.5)) }

/-- The characters of the detection class `/[ひらがなカタカナ漢字]/` — a
class of those literal characters, exactly as in the source. -/
def jpDetectChars : List Char := ['ひ', 'ら', 'が', 'な', 'カ', 'タ', 'カ', 'ナ', '漢', '字']

/-- The language auto-detection in `parseCard`. -/
def detectLanguage (rawText : String) (language : LangOpt) : Lang :=
  match language with
  | .auto => if rawText.data.any (fun c => jpDetectChars.contains c) then .ja else .en
  | .ja => .ja
  | .en => .en

/-- `parseCard` (parseCard.ts). -/
def parseCard (rawText : String) (options : ParseCardOptions)
    (resp : Except String (Option GPTRaw)) : Except String ParsedCardData :=
  let fallbackToRegex := options.fallbackToRegex.getD true
  let language := options.language.getD .auto
  if jsTrim rawText = "" then .error "Empty text provided"
  else
    let detectedLanguage := detectLanguage rawText language
    match extractWithGPT resp with
    | .ok gptResult =>
      if gptResult.confidence < 0.7 ∧ fallbackToRegex = true then
        let regexResult := extractWithRegex rawText detectedLanguage
        .ok { name := jsOrOr gptResult.name regexResult.name,
              company := jsOrOr gptResult.company regexResult.company,
              role := jsOrOr gptResult.role regexResult.role,
              email := jsOrOr gptResult.email regexResult.email,
              phone := jsOrOr gptResult.phone regexResult.phone,
              confidence := max gptResult.confidence 0.6 }
      else .ok gptResult
    | .error e =>
      if fallbackToRegex = false then .error e
      else
        let regexResult := extractWithRegex rawText detectedLanguage
        .ok { name := regexResult.name.getD "", company := regexResult.company.getD "",
              role := regexResult.role.getD "", email := regexResult.email.getD "",
              phone := regexResult.phone.getD "",
              confidence := 0.4 }

end ParseCard

/-! ### Server mail generation — the `generateMail` half of src/server/src/helpers/gmail.ts -/

namespace Gmail

/-- `Recipient` (gmail.ts). -/
structure Recipient where
  name : String
  email : String
  company : String
  role : Option String

/-- `TemplateOverrides`: both fields optional. -/
structure TemplateOverrides where
  subject : Option String
  body : Option String

/-- `EmailContent` (gmail.ts): plain subject/body pair. -/
structure MailContent where
  subject : String
  body : String
deriving DecidableEq, Repr

/-- The canonical closing sentence required by the system prompt and
enforced on generated bodies. -/
def closingPhrase : String := "ご返信お待ちしております。"

/-- The fallback template built in `generateMail`'s catch block. -/
def fallbackTemplate (recipient : Recipient) : MailContent :=
  { subject := recipient.company ++ " " ++ recipient.name ++ "様 - ご挨拶",
    body := recipient.name ++ "様\n\n先日はお時間をいただきありがとうございました。\n"
      ++ recipient.company ++ "様の事業について大変興味深く拝聴いたしました。\n\nぜひ一度、詳しくお話をお聞かせいただければ幸いです。\nご都合のよろしい日時をお知らせください。\n\nご返信お待ちしております。" }

/-- `generateMail` (gmail.ts).  `ai` is the outcome of the OpenAI call up
to and including JSON parsing and zod validation of `{subject, body}` —
`.error` for any throw in that pipeline (all are caught and answered with
the fallback template).  Overrides are used verbatim only when **both**
are truthy (JS `overrides?.subject && overrides?.body`: an empty string
does not count as supplied). -/
def generateMail (recipient : Recipient) (overrides : Option TemplateOverrides)
    (ai : Except String MailContent) : MailContent :=
  if jsTruthy (overrides.bind TemplateOverrides.subject) &&
     jsTruthy (overrides.bind TemplateOverrides.body) then
    { subject := (overrides.bind TemplateOverrides.subject).getD "",
      body := (overrides.bind TemplateOverrides.body).getD "" }
  else
    match ai with
    | .ok validated =>
      if jsEndsWith validated.body closingPhrase then validated
      else { validated with body := validated.body ++ "\n\n" ++ closingPhrase }
    | .error _ => fallbackTemplate recipient

end Gmail

/-- `tone` enumeration shared by the two email generators. -/
inductive Tone : Type where
  | professional : Tone
  | friendly : Tone
  | casual : Tone
deriving DecidableEq, Repr

/-! ### Email generator — src/server/src/helpers/emailGenerator.ts -/

namespace EmailGen

/-- `BusinessCardData` (emailGenerator.ts): every field optional. -/
structure BusinessCardData where
  name : Option String
  company : Option String
  role : Option String
  email : Option String
  phone : Option String
  address : Option String
  website : Option String

/-- `GenerateEmailOptions` (emailGenerator.ts). -/
structure GenerateEmailOptions where
  cardData : BusinessCardData
  senderName : String
  senderCompany : Option String
  tone : Option Tone
  language : Option Lang
  customMessage : Option String

/-- The JS object produced by `generateTemplateEmail` / the stream paths.
Spreading `templates[tone]` with an `undefined` `tone` leaves `subject`
and `body` absent, hence the `Option`s; a value conforming to the declared
`EmailContent` type has them (and `tone`) present. -/
structure JsEmailContent where
  subject : Option String
  body : Option String
  tone : Option Tone
  language : Lang
deriving DecidableEq, Repr

/-- The Japanese template table of `generateTemplateEmail` (subject, body). -/
def templatesJa (tone : Tone) (name senderName : String) : String × String :=
  match tone with
  | .professional =>
    (name ++ "様、お世話になっております",
     name ++ "様\n\nお世話になっております。\n" ++ senderName
       ++ "です。\n\n本日は貴重なお時間をいただき、ありがとうございました。\n名刺交換をさせていただき、光栄でした。\n\n今後ともどうぞよろしくお願いいたします。\n\n"
       ++ senderName)
  | .friendly =>
    (name ++ "様、ありがとうございました",
     name ++ "様\n\n" ++ senderName
       ++ "です。\n\n今日は名刺交換をさせていただき、ありがとうございました。\nお話しできて とても嬉しかったです。\n\nまたお会いできることを楽しみにしております。\n\n"
       ++ senderName)
  | .casual =>
    (name ++ "さん、お疲れ様でした",
     name ++ "さん\n\n" ++ senderName
       ++ "です。\n\n今日はありがとうございました！\n名刺交換できて良かったです。\n\nまた機会があればお話しましょう。\n\n"
       ++ senderName)

/-- The English template table of `generateTemplateEmail` (subject, body). -/
def templatesEn (tone : Tone) (name company senderName : String) : String × String :=
  match tone with
  | .professional =>
    ("Nice meeting you, " ++ name,
     "Dear " ++ name
       ++ ",\n\nThank you for taking the time to exchange business cards with me today.\n\nIt was a pleasure meeting you and learning about your work at "
       ++ company
       ++ ".\n\nI look forward to staying in touch and potentially collaborating in the future.\n\nBest regards,\n"
       ++ senderName)
  | .friendly =>
    ("Great meeting you today, " ++ name,
     "Hi " ++ name
       ++ ",\n\nIt was great meeting you today and exchanging business cards!\n\nI really enjoyed our conversation about "
       ++ company ++ ".\n\nHope to connect again soon!\n\nBest,\n" ++ senderName)
  | .casual =>
    ("Nice meeting you, " ++ name,
     "Hi " ++ name
       ++ ",\n\nThanks for the business card exchange today!\n\nWas nice chatting with you.\n\nLet\x27s keep in touch!\n\n"
       ++ senderName)

/-- `generateTemplateEmail` (emailGenerator.ts).  The destructuring
`const { cardData, senderName, tone, language = 'ja' } = options` gives
`tone` **no default**: with an absent tone the source spreads
`templates[undefined]`, i.e. `undefined`, and the result carries no
subject or body. -/
def generateTemplateEmail (options : GenerateEmailOptions) : JsEmailContent :=
  let language := options.language.getD .ja
  match options.tone with
  | none => { subject := none, body := none, tone := none, language := language }
  | some tone =>
    let entry :=
      match language with
      | .ja => templatesJa tone (jsOr options.cardData.name "") options.senderName
      | .en => templatesEn tone (jsOr options.cardData.name "")
          (jsOr options.cardData.company (if tone = Tone.professional then "your company" else "your work"))
          options.senderName
    { subject := some entry.1, body := some entry.2, tone := some tone, language := language }

/-- One chunk step of `generateEmailStream`'s accumulation loop:
`(subject, body, isBodySection)` before the chunk to after it. -/
def streamStep (subject body : String) (isBody : Bool) (content : String) :
    String × String × Bool :=
  if jsIncludes content "件名:" || jsIncludes content "Subject:" then (subject, body, false)
  else if jsIncludes content "本文:" || jsIncludes content "Body:" then (subject, body, true)
  else if jsTrim content ≠ "" then
    (if isBody then (subject, body ++ content, true) else (subject ++ content, body, false))
  else (subject, body, isBody)

/-- A completed interaction with the chunk stream: the `delta.content` of
each chunk it produced (in order, `none` when absent), and whether the
stream (or its creation) threw after producing them. -/
structure StreamRun where
  chunks : List (Option String)
  failed : Bool

/-- The yield-accumulating loop of `generateEmailStream`. -/
def emailStreamLoop (tone : Tone) (language : Lang) :
    List (Option String) → String → String → Bool → List JsEmailContent × (String × String)
  | [], subject, body, _ => ([], (subject, body))
  | c :: cs, subject, body, isBody =>
    let content := c.getD ""
    let st := streamStep subject body isBody content
    let y : JsEmailContent :=
      { subject := some (jsTrim st.1), body := some (jsTrim st.2.1),
        tone := some tone, language := language }
    let r := emailStreamLoop tone language cs st.1 st.2.1 st.2.2
    (y :: r.1, r.2)

/-- `generateEmailStream` (emailGenerator.ts): yields partials per chunk
and finally resolves; a throw anywhere in the try block is answered by
`generateTemplateEmail options` — the accumulated subject/body are not
consulted on that path. -/
def generateEmailStream (options : GenerateEmailOptions) (run : StreamRun) :
    List JsEmailContent × JsEmailContent :=
  let tone := options.tone.getD .professional
  let language := options.language.getD .ja
  let r := emailStreamLoop tone language run.chunks "" "" false
  if run.failed then (r.1, generateTemplateEmail options)
  else
    (r.1, { subject := some (jsTrim r.2.1), body := some (jsTrim r.2.2),
            tone := some tone, language := language })

end EmailGen

/-! ### Web mail helper — generateMail/generateMailStream (src/unnamed/part_004) -/

namespace MailHelper

/-- `EmailContent` (part_004). -/
structure EmailContent where
  subject : String
  body : String
  tone : Tone
  language : Lang
deriving DecidableEq, Repr

/-- `GenerateMailOptions` (part_004): all fields optional. -/
structure GenerateMailOptions where
  tone : Option Tone
  language : Option Lang
  customMessage : Option String
  senderName : Option String
  senderCompany : Option String

/-- One `EMAIL_TEMPLATES` entry. -/
structure TemplateEntry where
  subject : String
  greeting : String
  closing : String

/-- The `EMAIL_TEMPLATES` table of part_004. -/
def emailTemplates (tone : Tone) (language : Lang) : TemplateEntry :=
  match tone, language with
  | .professional, .ja =>
    { subject := "{name}様、お世話になっております",
      greeting := "{name}様\n\nお世話になっております。",
      closing := "今後ともどうぞよろしくお願いいたします。" }
  | .professional, .en =>
    { subject := "Nice meeting you, {name}",
      greeting := "Dear {name},\n\nIt was a pleasure meeting you.",
      closing := "Looking forward to staying in touch." }
  | .friendly, .ja =>
    { subject := "{name}さん、お会いできて嬉しかったです",
      greeting := "{name}さん\n\nお会いできて嬉しかったです！",
      closing := "またお話しできることを楽しみにしています。" }
  | .friendly, .en =>
    { subject := "Great meeting you, {name}!",
      greeting := "Hi {name},\n\nIt was great meeting you!",
      closing := "Hope we can chat again soon." }
  | .casual, .ja =>
    { subject := "{name}さん、お疲れさまでした",
      greeting := "{name}さん\n\nお疲れさまでした！",
      closing := "またお会いしましょう！" }
  | .casual, .en =>
    { subject := "Hey {name}, nice meeting you!",
      greeting := "Hey {name},\n\nNice meeting you!",
      closing := "Let\x27s keep in touch!" }

/-- JS `String.prototype.replace` with a plain-string pattern: only the
first occurrence is replaced. -/
def replaceFirstList (pat repl : List Char) : List Char → List Char
  | [] => if pat.isPrefixOf [] then repl else []
  | c :: rest =>
    if pat.isPrefixOf (c :: rest) then repl ++ (c :: rest).drop pat.length
    else c :: replaceFirstList pat repl rest

/-- JS `s.replace(pat, repl)` for string `pat`. -/
def jsReplaceFirst (s pat repl : String) : String :=
  ⟨replaceFirstList pat.data repl.data s.data⟩

/-- `generateWithTemplate` (part_004): deterministic template fallback.
Here the destructuring does default `tone`/`language`
(`const { tone = 'professional', language = 'ja', ... } = options`). -/
def generateWithTemplate (cardData : ParseCard.ParsedCardData)
    (options : GenerateMailOptions) : EmailContent :=
  let tone := options.tone.getD .professional
  let language := options.language.getD .ja
  let template := emailTemplates tone language
  let subject := jsReplaceFirst template.subject "{name}" cardData.name
  let body0 := jsReplaceFirst template.greeting "{name}" cardData.name
  let body1 :=
    if cardData.company ≠ "" then
      body0 ++ (if language = Lang.ja
        then "\n" ++ cardData.company ++ "でのお仕事、お疲れさまです。"
        else "\nI hope things are going well at " ++ cardData.company ++ ".")
    else body0
  let body2 :=
    if jsTruthy options.customMessage then body1 ++ "\n\n" ++ options.customMessage.getD ""
    else body1
  let body3 := body2 ++ "\n\n" ++ template.closing
  let body4 :=
    if jsTruthy options.senderName then
      body3 ++ (if language = Lang.ja
        then "\n\n" ++ options.senderName.getD ""
        else "\n\nBest regards,\n" ++ options.senderName.getD "")
    else body3
  { subject := subject, body := body4, tone := tone, language := language }

/-- A yielded `Partial<EmailContent>` of `generateMailStream`. -/
structure PartialEmail where
  subject : Option String
  body : Option String
  tone : Option Tone
  language : Option Lang
deriving DecidableEq, Repr

/-- The body-accumulation loop of `generateMailStream`: each chunk with
truthy `delta.content` appends it and yields the state so far. -/
def streamYields (subject : String) (tone : Tone) (language : Lang) :
    List (Option String) → String → List PartialEmail × String
  | [], body => ([], body)
  | c :: cs, body =>
    if jsTruthy c then
      let body2 := body ++ c.getD ""
      let r := streamYields subject tone language cs body2
      ({ subject := some subject, body := some body2,
         tone := some tone, language := some language } :: r.1, r.2)
    else streamYields subject tone language cs body

/-- `generateMailStream` (part_004): the template-derived subject is
yielded before the try block; on a stream failure (after any number of
consumed chunks) the catch yields and returns
`generateWithTemplate cardData options`, abandoning the accumulated body. -/
def generateMailStream (cardData : ParseCard.ParsedCardData)
    (options : GenerateMailOptions) (run : EmailGen.StreamRun) :
    List PartialEmail × EmailContent :=
  let tone := options.tone.getD .professional
  let language := options.language.getD .ja
  let template := emailTemplates tone language
  let subject := jsReplaceFirst template.subject "{name}" cardData.name
  let firstYield : PartialEmail :=
    { subject := some subject, body := none, tone := some tone, language := some language }
  let r := streamYields subject tone language run.chunks ""
  if run.failed then
    let fallback := generateWithTemplate cardData options
    (firstYield :: r.1 ++
      [{ subject := some fallback.subject, body := some fallback.body,
         tone := some fallback.tone, language := some fallback.language }],
     fallback)
  else
    (firstYield :: r.1,
     { subject := subject, body := r.2, tone := tone, language := language })

end MailHelper

/-! ### Server OCR fallback — src/server/src/helpers/processOCR.ts -/

namespace ProcessOCR

/-- `OCRResult` = `z.infer<typeof OCRResultSchema>`: every field optional
except `confidence` (the schema constrains it to the interval from 0 to 1). -/
structure OCRRecord where
  name : Option String
  company : Option String
  role : Option String
  email : Option String
  phone : Option String
  address : Option String
  website : Option String
  confidence : ℚ
deriving DecidableEq, Repr

/-- `/[a-zA-Z0-9._%+-]+@[a-zA-Z0-9.-]+\.[a-zA-Z]{2,}/` (same shape as the
web pattern, no `g` flag). -/
def emailRegex : RE := ParseCard.emailRe

/-- `/(?:\+81|0)\d{1,4}-?\d{1,4}-?\d{4}/` -/
def phoneRegex : RE :=
  .cat (.alt (RE.lit "+81") (RE.ch '0'))
    (.cat (RE.repRange (.cls digitChar) 1 4) (.cat (RE.opt (RE.ch '-'))
      (.cat (RE.repRange (.cls digitChar) 1 4)
        (.cat (RE.opt (RE.ch '-')) (RE.repExact (.cls digitChar) 4)))))

/-- `/https?:\/\/[^\s]+/` -/
def urlRegex : RE :=
  .cat (RE.lit "http") (.cat (RE.opt (RE.ch 's'))
    (.cat (RE.lit "://") (RE.plus (.cls (fun c => !jsWhitespace c)))))

/-- `extractWithRegex` (processOCR.ts): the deterministic server-side
fallback, fixed confidence 0.4. -/
def extractWithRegex (text : String) : OCRRecord :=
  let email := (jsMatchFirst emailRegex text).getD ""
  let phone := (jsMatchFirst phoneRegex text).getD ""
  let website := (jsMatchFirst urlRegex text).getD ""
  let lines := (jsSplitNl text).filter (fun l => jsLength (jsTrim l) > 0)
  let name := lines.headD ""
  let company := (lines.drop 1).headD ""
  { name := some name, company := some company, role := some "",
    email := if email = "" then none else some email,
    phone := some phone, address := some "",
    website := if website = "" then none else some website,
    confidence := 0.4 }

/-- `parseCardDataWithGPT` (processOCR.ts): `gpt` is the outcome of the
OpenAI call, JSON parse and `OCRResultSchema.parse` together; any throw in
that pipeline lands in the catch, which falls back to `extractWithRegex`. -/
def parseCardDataWithGPT (rawText : String) (gpt : Except String OCRRecord) : OCRRecord :=
  match gpt with
  | .ok validated => validated
  | .error _ => extractWithRegex rawText

end ProcessOCR

/-! ## Claims -/

/-- **C1.** For every `ContactRecord` merge in `parseCard`, if the AI
candidate's confidence is ≥ 0.7 then — whatever the regex-fallback option
says — the returned record is the AI candidate itself: no field replaced,
no confidence adjustment. -/
theorem parseCard_highConfidence_trusted (rawText : String)
    (options : ParseCard.ParseCardOptions) (resp : Except String (Option ParseCard.GPTRaw))
    (g : ParseCard.ParsedCardData) (hg : ParseCard.extractWithGPT resp = .ok g)
    (ht : jsTrim rawText ≠ "") (hc : (0.7 : ℚ) ≤ g.confidence) :
    ParseCard.parseCard rawText options resp = .ok g := by
  simp only [ParseCard.parseCard]
  rw [if_neg ht, hg]
  exact if_neg (fun h => absurd h.1 (not_lt.mpr hc))

theorem parseCard_highConfidence_trusted_witness :
    ParseCard.parseCard "Taro" ⟨none, none⟩
      (.ok (some ⟨some "Taro", some "Ex", some "CEO", some "t@e.co", some "090", some 0.9⟩)) =
      .ok ⟨"Taro", "Ex", "CEO", "t@e.co", "090", 0.9⟩ :=
  parseCard_highConfidence_trusted _ _ _ _
    (by simp [ParseCard.extractWithGPT, jsOr, ParseCard.jsOrNum]; norm_num)
    (by decide) (by norm_num)

/-- **C2.** For every `ContactRecord` merge in `parseCard` where the AI
candidate's confidence is < 0.7 (and the regex fallback is enabled), each
merged field is the AI candidate's value if non-empty, else the regex
candidate's value, else empty (`jsOrOr`), and the merged confidence is
`max (AI confidence) 0.6`, hence ≥ 0.6. -/
theorem parseCard_lowConfidence_merge (rawText : String)
    (options : ParseCard.ParseCardOptions) (resp : Except String (Option ParseCard.GPTRaw))
    (g : ParseCard.ParsedCardData) (hg : ParseCard.extractWithGPT resp = .ok g)
    (ht : jsTrim rawText ≠ "") (hc : g.confidence < 0.7)
    (hf : options.fallbackToRegex.getD true = true) :
    (ParseCard.parseCard rawText options resp =
      .ok { name := jsOrOr g.name (ParseCard.extractWithRegex rawText
              (ParseCard.detectLanguage rawText (options.language.getD .auto))).name,
            company := jsOrOr g.company (ParseCard.extractWithRegex rawText
              (ParseCard.detectLanguage rawText (options.language.getD .auto))).company,
            role := jsOrOr g.role (ParseCard.extractWithRegex rawText
              (ParseCard.detectLanguage rawText (options.language.getD .auto))).role,
            email := jsOrOr g.email (ParseCard.extractWithRegex rawText
              (ParseCard.detectLanguage rawText (options.language.getD .auto))).email,
            phone := jsOrOr g.phone (ParseCard.extractWithRegex rawText
              (ParseCard.detectLanguage rawText (options.language.getD .auto))).phone,
            confidence := max g.confidence 0.6 }) ∧
    (0.6 : ℚ) ≤ max g.confidence 0.6 := by
  refine ⟨?_, le_max_right _ _⟩
  simp only [ParseCard.parseCard]
  rw [if_neg ht, hg]
  exact if_pos ⟨hc, hf⟩

theorem parseCard_lowConfidence_merge_witness :
    (ParseCard.parseCard "Taro Yamada\ntaro@example.com" ⟨none, none⟩
        (.ok (some ⟨none, some "Ex", none, none, none, some 0.5⟩)) =
      .ok { name := jsOrOr "" (ParseCard.extractWithRegex "Taro Yamada\ntaro@example.com"
              (ParseCard.detectLanguage "Taro Yamada\ntaro@example.com" .auto)).name,
            company := jsOrOr "Ex" (ParseCard.extractWithRegex "Taro Yamada\ntaro@example.com"
              (ParseCard.detectLanguage "Taro Yamada\ntaro@example.com" .auto)).company,
            role := jsOrOr "" (ParseCard.extractWithRegex "Taro Yamada\ntaro@example.com"
              (ParseCard.detectLanguage "Taro Yamada\ntaro@example.com" .auto)).role,
            email := jsOrOr "" (ParseCard.extractWithRegex "Taro Yamada\ntaro@example.com"
              (ParseCard.detectLanguage "Taro Yamada\ntaro@example.com" .auto)).email,
            phone := jsOrOr "" (ParseCard.extractWithRegex "Taro Yamada\ntaro@example.com"
              (ParseCard.detectLanguage "Taro Yamada\ntaro@example.com" .auto)).phone,
            confidence := max 0.5 0.6 }) ∧
    (0.6 : ℚ) ≤ max 0.5 0.6 :=
  parseCard_lowConfidence_merge _ _ _ ⟨"", "Ex", "", "", "", 0.5⟩
    (by simp [ParseCard.extractWithGPT, jsOr, ParseCard.jsOrNum]; norm_num)
    (by decide) (by norm_num) rfl

/-- **C3.** When the AI extractor call fails (throws) and the regex
fallback is enabled, `parseCard` resolves (no error) with exactly the
deterministic pattern extractor's fields and confidence exactly 0.4;
likewise the server-side `parseCardDataWithGPT` answers a GPT-pipeline
failure with `extractWithRegex`'s record, whose confidence is 0.4. -/
theorem parseCard_aiFailure_fallback04 :
    (∀ (rawText : String) (options : ParseCard.ParseCardOptions)
       (resp : Except String (Option ParseCard.GPTRaw)) (e : String),
       ParseCard.extractWithGPT resp = .error e → jsTrim rawText ≠ "" →
       options.fallbackToRegex.getD true = true →
       ParseCard.parseCard rawText options resp =
         .ok { name := (ParseCard.extractWithRegex rawText
                 (ParseCard.detectLanguage rawText (options.language.getD .auto))).name.getD "",
               company := (ParseCard.extractWithRegex rawText
                 (ParseCard.detectLanguage rawText (options.language.getD .auto))).company.getD "",
               role := (ParseCard.extractWithRegex rawText
                 (ParseCard.detectLanguage rawText (options.language.getD .auto))).role.getD "",
               email := (ParseCard.extractWithRegex rawText
                 (ParseCard.detectLanguage rawText (options.language.getD .auto))).email.getD "",
               phone := (ParseCard.extractWithRegex rawText
                 (ParseCard.detectLanguage rawText (options.language.getD .auto))).phone.getD "",
               confidence := 0.4 }) ∧
    (∀ (rawText : String) (e : String),
       ProcessOCR.parseCardDataWithGPT rawText (.error e) = ProcessOCR.extractWithRegex rawText ∧
       (ProcessOCR.extractWithRegex rawText).confidence = 0.4) := by
  constructor
  · intro rawText options resp e hr ht hf
    simp only [ParseCard.parseCard]
    rw [if_neg ht, hr]
    exact if_neg (by simp [hf])
  · intro rawText e
    exact ⟨rfl, rfl⟩

theorem parseCard_aiFailure_fallback04_witness :
    ParseCard.parseCard "Taro Yamada\ntaro@example.com" ⟨none, none⟩ (.error "boom") =
      .ok { name := (ParseCard.extractWithRegex "Taro Yamada\ntaro@example.com"
              (ParseCard.detectLanguage "Taro Yamada\ntaro@example.com" .auto)).name.getD "",
            company := (ParseCard.extractWithRegex "Taro Yamada\ntaro@example.com"
              (ParseCard.detectLanguage "Taro Yamada\ntaro@example.com" .auto)).company.getD "",
            role := (ParseCard.extractWithRegex "Taro Yamada\ntaro@example.com"
              (ParseCard.detectLanguage "Taro Yamada\ntaro@example.com" .auto)).role.getD "",
            email := (ParseCard.extractWithRegex "Taro Yamada\ntaro@example.com"
              (ParseCard.detectLanguage "Taro Yamada\ntaro@example.com" .auto)).email.getD "",
            phone := (ParseCard.extractWithRegex "Taro Yamada\ntaro@example.com"
              (ParseCard.detectLanguage "Taro Yamada\ntaro@example.com" .auto)).phone.getD "",
            confidence := 0.4 } :=
  parseCard_aiFailure_fallback04.1 "Taro Yamada\ntaro@example.com" ⟨none, none⟩
    (.error "boom") "boom" rfl (by decide) rfl

/-- **C4, counterexample.** An override pair in which the subject is
supplied as the empty string is *not* returned verbatim: the JS truthiness
test `overrides?.subject && overrides?.body` rejects it and generation
proceeds (here the AI call fails, so the fallback template is returned
instead of the overrides). -/
theorem generateMail_empty_override_not_verbatim :
    Gmail.generateMail ⟨"Taro", "taro@example.com", "Example", none⟩
      (some ⟨some "", some "Thanks!"⟩) (.error "boom") ≠ ⟨"", "Thanks!"⟩ := by
  decide

/-- **C4, amended.** For every recipient, every override pair whose
subject and body are both supplied *and non-empty*, and every AI outcome,
`generateMail` returns exactly that subject and body; the result does not
depend on the AI outcome at all, so no generation — AI or template — can
influence it. -/
theorem generateMail_overrides_verbatim (r : Gmail.Recipient) (s b : String)
    (ai : Except String Gmail.MailContent) (hs : s ≠ "") (hb : b ≠ "") :
    Gmail.generateMail r (some ⟨some s, some b⟩) ai = ⟨s, b⟩ := by
  simp [Gmail.generateMail, jsTruthy, hs, hb]

theorem generateMail_overrides_verbatim_witness :
    Gmail.generateMail ⟨"Taro", "taro@example.com", "Example", none⟩
      (some ⟨some "Subj", some "Body"⟩) (.error "boom") = ⟨"Subj", "Body"⟩ :=
  generateMail_overrides_verbatim _ _ _ _ (by decide) (by decide)

/-- **C5, counterexample.** The template fallback of the `emailGenerator`
composer does *not* end primary-language professional bodies with the
canonical closing sentence: its ja/professional template body ends with
the sender name. -/
theorem generateTemplateEmail_no_canonical_closing :
    ((EmailGen.generateTemplateEmail
        ⟨⟨some "Taro", none, none, none, none, none, none⟩, "Sato", none,
         some .professional, some .ja, none⟩).body ≠ none) ∧
    jsEndsWith ((EmailGen.generateTemplateEmail
        ⟨⟨some "Taro", none, none, none, none, none, none⟩, "Sato", none,
         some .professional, some .ja, none⟩).body.getD "") Gmail.closingPhrase = false := by
  decide

/-- A string always ends with what was appended to it. -/
theorem jsEndsWith_append (a b : String) : jsEndsWith (a ++ b) b = true := by
  show (b.data.isSuffixOf (a.data ++ b.data)) = true
  simp [List.isSuffixOf]

/-- Prepending text preserves a string's suffix. -/
theorem jsEndsWith_mono (x s b : String) (h : jsEndsWith s b = true) :
    jsEndsWith (x ++ s) b = true := by
  show (b.data.isSuffixOf (x.data ++ s.data)) = true
  replace h : b.data.isSuffixOf s.data = true := h
  simp only [List.isSuffixOf] at h ⊢
  rw [List.reverse_append]
  exact List.isPrefixOf_iff_prefix.mpr
    ((List.isPrefixOf_iff_prefix.mp h).trans (List.prefix_append _ _))

/-- **C5, amended.** In the gmail.ts composer `generateMail` (which always
writes primary-language professional mail), every result of the AI path or
the template fallback path has a body ending with the canonical closing
sentence; when a validated AI body does not already end with it, the
closing is appended after a blank-line separator rather than the output
being rejected.  (The `emailGenerator` composer does not enforce this.) -/
theorem generateMail_closing_enforced (r : Gmail.Recipient)
    (ai : Except String Gmail.MailContent) :
    jsEndsWith (Gmail.generateMail r none ai).body Gmail.closingPhrase = true ∧
    (∀ v, ai = .ok v → jsEndsWith v.body Gmail.closingPhrase = false →
      (Gmail.generateMail r none ai).body = v.body ++ "\n\n" ++ Gmail.closingPhrase) := by
  constructor
  · match ai with
    | .error e =>
      show jsEndsWith (Gmail.fallbackTemplate r).body Gmail.closingPhrase = true
      exact jsEndsWith_mono _ _ _ (by decide)
    | .ok v =>
      by_cases h : jsEndsWith v.body Gmail.closingPhrase = true
      · simp [Gmail.generateMail, jsTruthy, h]
      · rw [show Gmail.generateMail r none (.ok v) =
            { v with body := v.body ++ "\n\n" ++ Gmail.closingPhrase } from by
              simp [Gmail.generateMail, jsTruthy, h]]
        exact jsEndsWith_append _ _
  · intro v hv hne
    subst hv
    simp [Gmail.generateMail, jsTruthy, hne]

theorem generateMail_closing_enforced_witness :
    jsEndsWith (Gmail.generateMail ⟨"Taro", "taro@example.com", "Ex", none⟩ none
      (.ok ⟨"S", "B"⟩)).body Gmail.closingPhrase = true ∧
    (Gmail.generateMail ⟨"Taro", "taro@example.com", "Ex", none⟩ none
      (.ok ⟨"S", "B"⟩)).body = "B" ++ "\n\n" ++ Gmail.closingPhrase :=
  ⟨(generateMail_closing_enforced ⟨"Taro", "taro@example.com", "Ex", none⟩ (.ok ⟨"S", "B"⟩)).1,
   (generateMail_closing_enforced ⟨"Taro", "taro@example.com", "Ex", none⟩ (.ok ⟨"S", "B"⟩)).2
     ⟨"S", "B"⟩ rfl (by decide)⟩

/-- **C6.** In both streaming generators, whenever the underlying stream
fails partway — after any number of consumed chunks — the final resolved
content is exactly the deterministic template generator's output for the
same inputs, a value that does not depend on the accumulated chunks at
all, so no truncated AI body can ever be the final result. -/
theorem streamFailure_uses_template :
    (∀ (cardData : ParseCard.ParsedCardData) (options : MailHelper.GenerateMailOptions)
       (chunks : List (Option String)),
       (MailHelper.generateMailStream cardData options ⟨chunks, true⟩).2 =
         MailHelper.generateWithTemplate cardData options) ∧
    (∀ (options : EmailGen.GenerateEmailOptions) (chunks : List (Option String)),
       (EmailGen.generateEmailStream options ⟨chunks, true⟩).2 =
         EmailGen.generateTemplateEmail options) := by
  exact ⟨fun _ _ _ => rfl, fun _ _ => rfl⟩

/-- **C7, counterexample.** A fully successful attempt reports the
progress sequence 10, 30, 60, 70, 80, 100 — not the 10, 40, 70, 100
checkpoints stated by the specification (30 is reported, 40 never is). -/
theorem processCardHandler_progress_not_spec_checkpoints :
    (Worker.processCardHandler (.ok "Taro") (.ok ()) (.ok ⟨none, none, none⟩) true).2 ≠
      [10, 40, 70, 100] ∧
    30 ∈ (Worker.processCardHandler (.ok "Taro") (.ok ()) (.ok ⟨none, none, none⟩) true).2 ∧
    40 ∉ (Worker.processCardHandler (.ok "Taro") (.ok ()) (.ok ⟨none, none, none⟩) true).2 := by
  refine ⟨by decide, by decide, by decide⟩

/-- **C7, amended.** Every job attempt in which OCR, save and send all
succeed reports exactly the fixed checkpoints 10 (on claim), 30 (after
preprocessing), 60 (after OCR), 70 (after extraction), 80 (after saving),
100 (on send), and that sequence is non-decreasing. -/
theorem processCardHandler_progress_checkpoints (text : String) (r : Worker.SendResult)
    (u : Bool) :
    (Worker.processCardHandler (.ok text) (.ok ()) (.ok r) u).2 =
      [10, 30, 60, 70, 80, 100] ∧
    List.Chain' (· ≤ ·) (Worker.processCardHandler (.ok text) (.ok ()) (.ok r) u).2 := by
  refine ⟨rfl, ?_⟩
  show List.Chain' (· ≤ ·) [10, 30, 60, 70, 80, 100]
  norm_num [List.chain'_cons]

/-- **C8, counterexample.** The worker-side extractor scores on a 0–100
scale: on a card whose text is just an email address it reports
confidence 40, outside the unit interval. -/
theorem worker_confidence_exceeds_unit_interval :
    (Worker.extractBusinessCardInfo "taro@example.com").confidence = 40 ∧
    ¬ (Worker.extractBusinessCardInfo "taro@example.com").confidence ≤ 1 := by
  have e1 : (jsMatchFirst Worker.emailPattern "taro@example.com").getD "" =
      "taro@example.com" := by decide
  have e2 : Worker.findName
      ((jsSplitNl "taro@example.com").filter (fun l => jsTrim l ≠ "")) = "" := by decide
  have e3 : Worker.findCompany Worker.companyPatterns "taro@example.com" = "" := by decide
  have e4 : Worker.findRole
      (List.filter (fun l => decide (jsTrim l ≠ "")) (jsSplitNl "taro@example.com")) "" =
      "" := by decide
  have h : (Worker.extractBusinessCardInfo "taro@example.com").confidence = 40 := by
    simp only [Worker.extractBusinessCardInfo, e1, e2, e3]
    rw [e4]
    norm_num
    decide
  exact ⟨h, by rw [h]; norm_num⟩

/-- The clamp in the web extractor keeps every successfully returned AI
confidence inside the unit interval. -/
theorem extractWithGPT_confidence_bounds (resp : Except String (Option ParseCard.GPTRaw))
    (g : ParseCard.ParsedCardData) (hg : ParseCard.extractWithGPT resp = .ok g) :
    0 ≤ g.confidence ∧ g.confidence ≤ 1 := by
  match resp with
  | .error e => simp [ParseCard.extractWithGPT] at hg
  | .ok none => simp [ParseCard.extractWithGPT] at hg
  | .ok (some parsed) =>
    simp only [ParseCard.extractWithGPT, Except.ok.injEq] at hg
    subst hg
    exact ⟨le_max_left _ _, max_le (by norm_num) (min_le_left _ _)⟩

/-- **C8, amended.** Confidence scales by component: the worker-side
extractor produces a 0–100 score, and the value it persists
(`confidence / 100` in `saveCardData`) is in the unit interval; the web
parser (`extractWithGPT` clamp and every record `parseCard` resolves
with) stays inside the unit interval. -/
theorem confidence_ranges :
    (∀ text : String, 0 ≤ (Worker.extractBusinessCardInfo text).confidence ∧
        (Worker.extractBusinessCardInfo text).confidence ≤ 100) ∧
    (∀ text : String, 0 ≤ Worker.savedConfidence (Worker.extractBusinessCardInfo text) ∧
        Worker.savedConfidence (Worker.extractBusinessCardInfo text) ≤ 1) ∧
    (∀ (resp : Except String (Option ParseCard.GPTRaw)) (g : ParseCard.ParsedCardData),
        ParseCard.extractWithGPT resp = .ok g → 0 ≤ g.confidence ∧ g.confidence ≤ 1) ∧
    (∀ (rawText : String) (options : ParseCard.ParseCardOptions)
       (resp : Except String (Option ParseCard.GPTRaw)) (m : ParseCard.ParsedCardData),
        ParseCard.parseCard rawText options resp = .ok m →
        0 ≤ m.confidence ∧ m.confidence ≤ 1) := by
  have hworker : ∀ text : String, 0 ≤ (Worker.extractBusinessCardInfo text).confidence ∧
      (Worker.extractBusinessCardInfo text).confidence ≤ 100 := by
    intro text
    simp only [Worker.extractBusinessCardInfo]
    constructor <;> split_ifs <;> norm_num
  refine ⟨hworker, ?_, extractWithGPT_confidence_bounds, ?_⟩
  · intro text
    obtain ⟨h0, h100⟩ := hworker text
    unfold Worker.savedConfidence
    constructor
    · positivity
    · rw [div_le_one (by norm_num)]
      exact h100
  · intro rawText options resp m hm
    simp only [ParseCard.parseCard] at hm
    split at hm
    · exact absurd hm (by simp)
    · split at hm
      case _ g hg =>
        obtain ⟨hg0, hg1⟩ := extractWithGPT_confidence_bounds resp g hg
        split at hm
        · cases hm
          exact ⟨le_trans hg0 (le_max_left _ _),
                 max_le hg1 (by norm_num)⟩
        · cases hm
          exact ⟨hg0, hg1⟩
      case _ e he =>
        split at hm
        · exact absurd hm (by simp)
        · cases hm
          constructor <;> norm_num

theorem confidence_ranges_witness :
    (0 ≤ (Worker.extractBusinessCardInfo "Hello").confidence ∧
      (Worker.extractBusinessCardInfo "Hello").confidence ≤ 100) ∧
    (0 ≤ Worker.savedConfidence (Worker.extractBusinessCardInfo "Hello") ∧
      Worker.savedConfidence (Worker.extractBusinessCardInfo "Hello") ≤ 1) ∧
    (0 ≤ (0.9 : ℚ) ∧ (0.9 : ℚ) ≤ 1) ∧
    (0 ≤ (0.4 : ℚ) ∧ (0.4 : ℚ) ≤ 1) :=
  ⟨confidence_ranges.1 "Hello",
   confidence_ranges.2.1 "Hello",
   confidence_ranges.2.2.1
     (.ok (some ⟨some "Taro", some "Ex", some "CEO", some "t@e.co", some "090", some 0.9⟩))
     ⟨"Taro", "Ex", "CEO", "t@e.co", "090", 0.9⟩
     (by simp [ParseCard.extractWithGPT, jsOr, ParseCard.jsOrNum]; norm_num),
   confidence_ranges.2.2.2 "Taro" ⟨none, none⟩ (.error "x") _ rfl⟩

/-- **C9 (code bug).** `generateTemplateEmail` destructures `tone` without
a default and indexes `templates[tone]`; when the caller omitted the tone
(a value its own `GenerateEmailOptions` type admits, and which
`generateEmail`'s fallback path passes through unchanged), it spreads
`undefined` and returns a record with no subject and no body — violating
its declared `EmailContent` return type and the schema in the same file. -/
theorem generateTemplateEmail_missing_tone_drops_content :
    (EmailGen.generateTemplateEmail
      ⟨⟨some "Taro", some "Ex", none, none, none, none, none⟩, "Sato", none,
       none, some .ja, none⟩).subject = none ∧
    (EmailGen.generateTemplateEmail
      ⟨⟨some "Taro", some "Ex", none, none, none, none, none⟩, "Sato", none,
       none, some .ja, none⟩).body = none := by
  decide

/-- **C10.** The worker extractor always yields a dispatchable record: its
name, email and company are never empty (fixed placeholders replace
missing fields), and in particular on text with no email-pattern match the
email is the placeholder address `no-email@example.com`. -/
theorem extractBusinessCardInfo_dispatchable (text : String) :
    ((Worker.extractBusinessCardInfo text).name ≠ "" ∧
     (Worker.extractBusinessCardInfo text).email ≠ "" ∧
     (Worker.extractBusinessCardInfo text).company ≠ "") ∧
    (jsMatchFirst Worker.emailPattern text = none →
      (Worker.extractBusinessCardInfo text).email = "no-email@example.com") := by
  constructor
  · refine ⟨?_, ?_, ?_⟩ <;>
    · simp only [Worker.extractBusinessCardInfo]
      split
      · decide
      · assumption
  · intro h
    simp only [Worker.extractBusinessCardInfo, h]
    rfl

theorem extractBusinessCardInfo_dispatchable_witness :
    ((Worker.extractBusinessCardInfo "Hello").name ≠ "" ∧
     (Worker.extractBusinessCardInfo "Hello").email ≠ "" ∧
     (Worker.extractBusinessCardInfo "Hello").company ≠ "") ∧
    (Worker.extractBusinessCardInfo "Hello").email = "no-email@example.com" :=
  ⟨(extractBusinessCardInfo_dispatchable "Hello").1,
   (extractBusinessCardInfo_dispatchable "Hello").2 (by decide)⟩

end CardMail
